import Mathlib

/-!
Shallow embedding of the MES planning service (`app/main.py`):
the forecast store CRUD, the reorder planner (`_urgency`, `_recommend_qty`,
`reorder_candidates`) and the purchase-order creation flow (`create_po`).

Python `float` values (`usage_rate_per_day`) are modelled as rationals;
datetimes are modelled as rational timestamps. Missing/null numeric JSON
fields are `Option` values; the `or 0` normalisation of the source becomes
`Option.getD 0`. HTTP failures (`HTTPException(status, detail)`) are an
explicit error type on an `Except` result.
-/

namespace MSE

/-- Model of `HTTPException(status_code, detail)` as raised by the handlers.
Status 404 is the spec's `NotFoundError`, 409 its `ConflictError`,
502 its `UpstreamUnavailableError`. -/
structure HTTPException where
  status : Nat
  detail : String
  deriving DecidableEq, Repr

/-- A row of the `forecasts` table (model `Forecast` in `main.py`):
`id` primary key plus the five payload fields. `conint(ge=0)` on
`forecasted_usage` makes it a `Nat`; datetimes are rational timestamps. -/
structure ForecastRow where
  id : Int
  part_code : String
  forecasted_usage : Nat
  job_id : Option String
  job_start_date : Option ℚ
  job_end_date : Option ℚ
  deriving DecidableEq, Repr

/-- The request schema `ForecastIn`: all fields of a forecast except `id`. -/
structure ForecastIn where
  part_code : String
  forecasted_usage : Nat
  job_id : Option String
  job_start_date : Option ℚ
  job_end_date : Option ℚ
  deriving DecidableEq, Repr

/-- Effect of `setattr(row, k, v)` for every payload key: every mutable field is
overwritten with the payload's value; `id` is not a payload key. -/
def applyPayload (r : ForecastRow) (p : ForecastIn) : ForecastRow :=
  { id := r.id
    part_code := p.part_code
    forecasted_usage := p.forecasted_usage
    job_id := p.job_id
    job_start_date := p.job_start_date
    job_end_date := p.job_end_date }

/-- Model of `db.get(Forecast, fid)`: primary-key lookup, the first row with this id. -/
def dbGet (db : List ForecastRow) (fid : Int) : Option ForecastRow :=
  db.find? (fun r => r.id == fid)

/-- In-place mutation of the row found by `db.get`: replace the first row
whose id is `fid`, leaving every other row untouched. -/
def updateFirst (db : List ForecastRow) (fid : Int) (p : ForecastIn) : List ForecastRow :=
  match db with
  | [] => []
  | r :: rest =>
      if r.id == fid then applyPayload r p :: rest else r :: updateFirst rest fid p

/-- Handler of `PUT /forecast/\x7bfid\x7d` (`update_forecast`): 404 when `db.get` finds no
row, otherwise overwrite all payload fields of the located row and return
the new store together with the updated row. -/
def update_forecast (db : List ForecastRow) (fid : Int) (p : ForecastIn) :
    Except HTTPException (List ForecastRow × ForecastRow) :=
  match dbGet db fid with
  | none => .error ⟨404, "forecast not found"⟩
  | some r => .ok (updateFirst db fid p, applyPayload r p)

/-- Model of `db.delete(row)`: remove the (unique, primary-key) row found by `db.get`. -/
def deleteFirst (db : List ForecastRow) (fid : Int) : List ForecastRow :=
  db.eraseP (fun r => r.id == fid)

/-- Handler of `DELETE /forecast/\x7bfid\x7d` (`delete_forecast`): when `db.get` finds no row
the handler plain-returns (HTTP 204, no error); otherwise the row is deleted. -/
def delete_forecast (db : List ForecastRow) (fid : Int) :
    Except HTTPException (List ForecastRow) :=
  match dbGet db fid with
  | none => .ok db
  | some _ => .ok (deleteFirst db fid)

/-- Modelled from the spec: a single-record `get(id)` operation is listed in
§4.1 but `main.py` exposes only `list`; per the spec it fails with
`NotFoundError` on an unknown id and otherwise returns the located record. -/
def get_forecast (db : List ForecastRow) (fid : Int) :
    Except HTTPException ForecastRow :=
  match dbGet db fid with
  | none => .error ⟨404, "forecast not found"⟩
  | some r => .ok r

/-! ### Planning: urgency, recommended quantity, window demand -/

/-- Function `_urgency` from `main.py`, verbatim branch structure:
Critical / High / Medium / Low, first match wins. -/
def urgency (stock : Int) (usage_per_day : ℚ) (lead_time_days : Int)
    (reorder_point : Int) (window : Int) : String :=
  if (stock : ℚ) < usage_per_day * (lead_time_days : ℚ) then "Critical"
  else if stock < reorder_point then "High"
  else if stock ≤ reorder_point + window then "Medium"
  else "Low"

/-- Function `_recommend_qty` from `main.py`: target is `max_threshold` when present,
else `reorder_point + window`; result `max(0, target - stock)`. -/
def recommend_qty (stock : Int) (reorder_point : Int) (window : Int)
    (max_threshold : Option Int) : Int :=
  let target := match max_threshold with
    | some t => t
    | none => reorder_point + window
  max 0 (target - stock)

/-- One forecast record as read in step 2 of `reorder_candidates`
(only `part_code` and `forecasted_usage` are consulted). -/
structure Forecast where
  part_code : String
  forecasted_usage : Nat
  deriving DecidableEq, Repr

/-- Step 2 of `reorder_candidates`: the dict `usage_by_code`, built by a left
fold over the forecast rows, modelled as a total function with default 0
(`usage_by_code.get(code, 0)`). -/
def usageByCode (fs : List Forecast) : String → Int :=
  fs.foldl
    (fun m f => Function.update m f.part_code (m f.part_code + (f.forecasted_usage : Int)))
    (fun _ => 0)

/-- One element of the ERP `/inventory/` JSON payload. Numeric fields may be
missing/null (`m.get(...)`); `part_code` may be missing or the empty string,
both falsy for `if not code`. -/
structure InvRecord where
  part_id : Int
  part_code : Option String
  part_name : String
  current_stock : Option Int
  reorder_point : Option Int
  lead_time_days : Option Int
  usage_rate_per_day : Option ℚ
  max_threshold : Option Int
  deriving DecidableEq, Repr

/-- The response model `ReorderCandidate`. `depletionDate` is modelled as the
rational timestamp `now + days_left` rather than its ISO rendering. -/
structure ReorderCandidate where
  part_id : Int
  part_code : Option String
  part_name : String
  current_stock : Int
  reorder_point : Int
  lead_time_days : Int
  usage_rate_per_day : ℚ
  window_demand : Int
  urgency : String
  recommendedQuantity : Int
  depletionDate : ℚ
  deriving DecidableEq, Repr

/-- The divide-by-zero guard `1e-9` of the depletion estimate. -/
def depletionEpsilon : ℚ := 1 / 10 ^ 9

/-- The loop body of step 3 of `reorder_candidates` for one inventory
record whose part code resolved to the non-empty `code`. -/
def mkCandidate (now : ℚ) (usage : String → Int) (code : String) (m : InvRecord) :
    ReorderCandidate :=
  let window := usage code
  let stock := m.current_stock.getD 0
  let rp := m.reorder_point.getD 0
  let ltd := m.lead_time_days.getD 0
  let upd := m.usage_rate_per_day.getD 0
  let per_day : ℚ := max depletionEpsilon upd
  let days_left : ℚ := (stock : ℚ) / per_day
  { part_id := m.part_id
    part_code := some code
    part_name := m.part_name
    current_stock := stock
    reorder_point := rp
    lead_time_days := ltd
    usage_rate_per_day := upd
    window_demand := window
    urgency := urgency stock upd ltd rp window
    recommendedQuantity := recommend_qty stock rp window m.max_threshold
    depletionDate := now + days_left }

/-- Step 3 of `reorder_candidates`: records with a falsy `part_code`
(missing or empty) are skipped, the rest become candidates in payload order. -/
def candidateRows (now : ℚ) (usage : String → Int) (inv : List InvRecord) :
    List ReorderCandidate :=
  inv.filterMap (fun m =>
    match m.part_code with
    | none => none
    | some code => if code = "" then none else some (mkCandidate now usage code m))

/-- Rank `order.get(x.urgency, 9)` used by the final sort. -/
def urgencyRank (u : String) : Nat :=
  if u = "Critical" then 0
  else if u = "High" then 1
  else if u = "Medium" then 2
  else if u = "Low" then 3
  else 9

/-- The sort key of `out.sort`: `(order.get(x.urgency, 9), -x.recommendedQuantity)`. -/
def sortKey (c : ReorderCandidate) : Nat × Int :=
  (urgencyRank c.urgency, -c.recommendedQuantity)

/-- Strict lexicographic order on sort keys. -/
def keyLt (a b : Nat × Int) : Prop :=
  a.1 < b.1 ∨ (a.1 = b.1 ∧ a.2 < b.2)

instance : DecidableRel keyLt := fun a b => by
  unfold keyLt; exact inferInstance

/-- Python's `list.sort` is stable: it orders elements by
`(sort key, original position)`. `stableLe` is that order on
position-tagged candidates. -/
def stableLe (a b : Nat × ReorderCandidate) : Prop :=
  keyLt (sortKey a.2) (sortKey b.2) ∨ (sortKey a.2 = sortKey b.2 ∧ a.1 ≤ b.1)

instance : DecidableRel stableLe := fun a b => by
  unfold stableLe; exact inferInstance

instance : IsTotal (Nat × ReorderCandidate) stableLe where
  total a b := by
    unfold stableLe keyLt
    rcases Nat.lt_trichotomy (sortKey a.2).1 (sortKey b.2).1 with h | h | h
    · exact Or.inl (Or.inl (Or.inl h))
    · rcases lt_trichotomy (sortKey a.2).2 (sortKey b.2).2 with h2 | h2 | h2
      · exact Or.inl (Or.inl (Or.inr ⟨h, h2⟩))
      · rcases Nat.le_total a.1 b.1 with h3 | h3
        · exact Or.inl (Or.inr ⟨Prod.ext h h2, h3⟩)
        · exact Or.inr (Or.inr ⟨(Prod.ext h h2).symm, h3⟩)
      · exact Or.inr (Or.inl (Or.inr ⟨h.symm, h2⟩))
    · exact Or.inr (Or.inl (Or.inl h))

instance : IsTrans (Nat × ReorderCandidate) stableLe where
  trans a b c hab hbc := by
    unfold stableLe keyLt at *
    rcases hab with (hab | hab) | ⟨hab, hab'⟩ <;>
      rcases hbc with (hbc | hbc) | ⟨hbc, hbc'⟩
    · exact Or.inl (Or.inl (hab.trans hbc))
    · exact Or.inl (Or.inl (hbc.1 ▸ hab))
    · exact Or.inl (Or.inl (hbc ▸ hab))
    · exact Or.inl (Or.inl (hab.1 ▸ hbc))
    · exact Or.inl (Or.inr ⟨hab.1.trans hbc.1, hab.2.trans hbc.2⟩)
    · exact Or.inl (Or.inr (hbc ▸ hab))
    · exact Or.inl (Or.inl (hab ▸ hbc))
    · exact Or.inl (Or.inr (hab ▸ hbc))
    · exact Or.inr ⟨hab.trans hbc, hab'.trans hbc'⟩

/-- Model of `out.sort(key=...)` — Python's stable sort, modelled as an insertion sort
of the position-tagged list under `stableLe`, positions dropped afterwards. -/
def sortCandidates (l : List ReorderCandidate) : List ReorderCandidate :=
  ((l.enum).insertionSort stableLe).map Prod.snd

/-! ### The planning endpoint -/

/-- Outcome of the `GET {ERP_API_URL}/inventory/` call in step 1:
either an HTTP response whose body parsed as a list of records, or a raised
exception (network/transport failure, or `r.json()` on a malformed body). -/
inductive ErpFetch where
  | response (status : Nat) (payload : List InvRecord) (text : String)
  | failure (msg : String)
  deriving DecidableEq, Repr

/-- The handler body of `GET /planning/reorder-candidates`. `horizon_days`
is accepted (validated by FastAPI, see `reorder_candidates_endpoint`) but
never used — "reserved for future per-day enhancement". A non-200 status or
a raised exception becomes `HTTPException(502, ...)` before any candidate is
computed; otherwise candidates are built and stably sorted. -/
def reorder_candidates (horizon_days : Int) (fetch : ErpFetch)
    (db : List Forecast) (now : ℚ) : Except HTTPException (List ReorderCandidate) :=
  match fetch with
  | .failure msg => .error ⟨502, "ERP inventory fetch failed: " ++ msg⟩
  | .response status payload text =>
      if status ≠ 200 then
        .error ⟨502, "ERP inventory fetch failed: HTTP " ++ toString status ++ " " ++ text⟩
      else
        .ok (sortCandidates (candidateRows now (usageByCode db) payload))

/-- The full endpoint including FastAPI's `Query(7, ge=1, le=90)` validation
of `horizon_days` (an out-of-range value is rejected with 422 before the
handler runs). -/
def reorder_candidates_endpoint (horizon_days : Int) (fetch : ErpFetch)
    (db : List Forecast) (now : ℚ) : Except HTTPException (List ReorderCandidate) :=
  if 1 ≤ horizon_days ∧ horizon_days ≤ 90 then
    reorder_candidates horizon_days fetch db now
  else
    .error ⟨422, "validation error"⟩

/-! ### Purchase-order creation -/

/-- The request schema `CreatePORequest` (`quantity` has `conint(gt=0)`;
defaults: `reason`, `lookback_hours=24`, `allow_duplicate=False` are applied
by pydantic before the handler runs, so fields here are the resolved values). -/
structure CreatePORequest where
  part_id : Int
  quantity : Int
  urgency : Option String
  reason : Option String
  correlation_id : Option String
  lookback_hours : Int
  allow_duplicate : Bool
  deriving DecidableEq, Repr

/-- The JSON body of the `POST /purchase-orders/` request. -/
structure POBody where
  part_id : Int
  quantity : Int
  urgency : Option String
  reason : Option String
  correlation_id : String
  deriving DecidableEq, Repr

/-- A network action issued by `create_po` towards ERP. `getPOList` would be
the client-side duplicate check (`GET /purchase-orders/`); `postPO` is the
creation write, carrying `lookback_hours` as a query parameter. -/
inductive NetAction where
  | getPOList
  | postPO (lookback_hours : Int) (body : POBody)
  deriving DecidableEq, Repr

/-- An existing purchase order as ERP would list it. -/
structure ErpPO where
  id : Int
  part_id : Int
  created_at : ℚ
  deriving DecidableEq, Repr

/-- An existing PO is a duplicate for `pid` when it is for the same part and
was created within the lookback window (hours) before `now`. -/
def withinLookback (now : ℚ) (lookback_hours : Int) (po : ErpPO) (pid : Int) : Prop :=
  po.part_id = pid ∧ now - po.created_at ≤ (lookback_hours : ℚ)

instance (now lb po pid) : Decidable (withinLookback now lb po pid) := by
  unfold withinLookback; exact inferInstance

/-- Outcome of the `POST {ERP_API_URL}/purchase-orders/` call: an HTTP
response (status, text, parsed JSON body on success) or a raised exception. -/
inductive PostOutcome where
  | response (status : Nat) (text : String) (json : String)
  | failure (msg : String)
  deriving DecidableEq, Repr

/-- The handler of `POST /planning/create-po` (`create_po`). `genCorr` is
the freshly generated `mes-...` correlation id used when the caller supplied
none. `existingPOs`/`now` describe the ERP's PO list at call time and
`erp` the ERP's reaction to the write; the handler consults none of the
former — it performs no client-side duplicate check — and issues exactly the
one `postPO` write. A 409 response with `allow_duplicate=False` is re-raised
as `HTTPException(409, r.text)`; any other non-2xx status makes
`raise_for_status` throw, which the `except` turns into a 502; a transport
failure also becomes a 502. Returns the actions issued and the result. -/
def create_po (req : CreatePORequest) (genCorr : String)
    (existingPOs : List ErpPO) (now : ℚ) (erp : PostOutcome) :
    List NetAction × Except HTTPException String :=
  let corr := match req.correlation_id with
    | some c => c
    | none => genCorr
  let body : POBody :=
    { part_id := req.part_id
      quantity := req.quantity
      urgency := req.urgency
      reason := req.reason
      correlation_id := corr }
  let actions := [NetAction.postPO req.lookback_hours body]
  let result : Except HTTPException String :=
    match erp with
    | .failure msg => .error ⟨502, "ERP PO create failed: " ++ msg⟩
    | .response status text json =>
        if status = 409 ∧ req.allow_duplicate = false then
          .error ⟨409, text⟩
        else if 200 ≤ status ∧ status < 300 then
          .ok json
        else
          .error ⟨502, "ERP PO create failed: HTTP status " ++ toString status⟩
  (actions, result)

end MSE

namespace MSE

/-! ### Helper lemmas -/

theorem usageByCode_foldl (fs : List Forecast) (m : String → Int) (c : String) :
    fs.foldl
      (fun m f => Function.update m f.part_code (m f.part_code + (f.forecasted_usage : Int))) m c
      = m c + (((fs.filter (fun f => f.part_code == c)).map
          (fun f => (f.forecasted_usage : Int))).sum) := by
  induction fs generalizing m with
  | nil => simp
  | cons f fs ih =>
    simp only [List.foldl_cons, ih, List.filter_cons]
    by_cases h : f.part_code = c
    · subst h
      simp [Function.update_apply]
      ring
    · simp [Function.update_apply, h]
      intro hc
      exact absurd hc.symm h

/-- Strict version of `stableLe`: key strictly smaller, or keys equal and
earlier original position. -/
def stableLt (a b : Nat × ReorderCandidate) : Prop :=
  keyLt (sortKey a.2) (sortKey b.2) ∨ (sortKey a.2 = sortKey b.2 ∧ a.1 < b.1)

theorem sortCandidates_perm (l : List ReorderCandidate) : (sortCandidates l).Perm l := by
  have h1 : ((l.enum).insertionSort stableLe).Perm l.enum := List.perm_insertionSort _ _
  have h2 := h1.map Prod.snd
  simpa [sortCandidates, List.enum_map_snd] using h2

theorem sortEnum_pairwise (l : List ReorderCandidate) :
    ((l.enum).insertionSort stableLe).Pairwise stableLt := by
  have hsorted : ((l.enum).insertionSort stableLe).Pairwise stableLe :=
    List.sorted_insertionSort _ _
  have hperm : ((l.enum).insertionSort stableLe).Perm l.enum := List.perm_insertionSort _ _
  have hnodup : ((l.enum).insertionSort stableLe).Pairwise (fun a b => a.1 ≠ b.1) := by
    have h1 : ((l.enum).map Prod.fst).Nodup := List.nodup_enum_map_fst l
    have h2 : (((l.enum).insertionSort stableLe).map Prod.fst).Nodup :=
      (hperm.map Prod.fst).nodup_iff.mpr h1
    exact (List.pairwise_map).mp h2
  refine (hsorted.and hnodup).imp ?_
  rintro a b ⟨hle, hne⟩
  rcases hle with h | ⟨heq, hpos⟩
  · exact Or.inl h
  · exact Or.inr ⟨heq, lt_of_le_of_ne hpos hne⟩

/-! ### Claim theorems -/

/-- The urgency rule exactly as claim C1 words it: `Medium` additionally
requires `window_demand > 0`. -/
def claim_urgency (stock : Int) (usage_per_day : ℚ) (lead_time_days : Int)
    (reorder_point : Int) (window : Int) : String :=
  if usage_per_day * (lead_time_days : ℚ) > (stock : ℚ) then "Critical"
  else if stock < reorder_point then "High"
  else if 0 < window ∧ stock ≤ reorder_point + window then "Medium"
  else "Low"

/-- C1 counterexample: at `current_stock = 10`, `usage_rate_per_day = 0`,
`lead_time_days = 0`, `reorder_point = 10`, `window_demand = 0`, the code's
`_urgency` returns `Medium` while the claim's rule (whose `Medium` branch
requires `window_demand > 0`) yields `Low`. -/
theorem urgency_medium_counterexample :
    urgency 10 0 0 10 0 = "Medium" ∧ claim_urgency 10 0 0 10 0 = "Low" := by
  constructor <;> simp [urgency, claim_urgency]

/-- C1 (amended): the code's urgency classification is a pure function of
`(current_stock, usage_rate_per_day, lead_time_days, reorder_point,
window_demand)`, evaluated in strict priority order with first match
winning — Critical if `usage_rate_per_day * lead_time_days > current_stock`;
else High if `current_stock < reorder_point`; else Medium if
`current_stock <= reorder_point + window_demand` (the code has no
`window_demand > 0` conjunct); else Low — and it always yields exactly one
of Critical/High/Medium/Low. -/
theorem urgency_classification (stock : Int) (u : ℚ) (ltd rp w : Int) :
    (urgency stock u ltd rp w = "Critical" ∨ urgency stock u ltd rp w = "High" ∨
     urgency stock u ltd rp w = "Medium" ∨ urgency stock u ltd rp w = "Low") ∧
    (urgency stock u ltd rp w = "Critical" ↔ u * (ltd : ℚ) > (stock : ℚ)) ∧
    (urgency stock u ltd rp w = "High" ↔
      ¬(u * (ltd : ℚ) > (stock : ℚ)) ∧ stock < rp) ∧
    (urgency stock u ltd rp w = "Medium" ↔
      ¬(u * (ltd : ℚ) > (stock : ℚ)) ∧ rp ≤ stock ∧ stock ≤ rp + w) ∧
    (urgency stock u ltd rp w = "Low" ↔
      ¬(u * (ltd : ℚ) > (stock : ℚ)) ∧ rp ≤ stock ∧ rp + w < stock) := by
  unfold urgency
  split_ifs with h1 h2 h3 <;>
    refine ⟨by simp, ?_, ?_, ?_, ?_⟩ <;> simp_all

/-- C3: the candidate list produced by the planner's final sort is the
stable sort of the computed rows: it is a permutation of them, and after
tagging rows with their original position, consecutive entries are strictly
ordered by ascending urgency rank (`Critical=0, High=1, Medium=2, Low=3`),
then descending `recommendedQuantity`, then — when both keys tie — ascending
original position (stability). Determinism is inherent: `sortCandidates` is
a function of the row list alone. -/
theorem sortCandidates_sorted_stable (l : List ReorderCandidate) :
    sortCandidates l = ((l.enum).insertionSort stableLe).map Prod.snd ∧
    (sortCandidates l).Perm l ∧
    ((l.enum).insertionSort stableLe).Pairwise
      (fun a b : Nat × ReorderCandidate =>
        urgencyRank a.2.urgency < urgencyRank b.2.urgency ∨
        (urgencyRank a.2.urgency = urgencyRank b.2.urgency ∧
          a.2.recommendedQuantity > b.2.recommendedQuantity) ∨
        (urgencyRank a.2.urgency = urgencyRank b.2.urgency ∧
          a.2.recommendedQuantity = b.2.recommendedQuantity ∧ a.1 < b.1)) := by
  refine ⟨rfl, sortCandidates_perm l, ?_⟩
  refine (sortEnum_pairwise l).imp ?_
  rintro a b h
  rcases h with h | ⟨heq, hpos⟩
  · simp only [keyLt, sortKey] at h
    rcases h with h | ⟨h1, h2⟩
    · exact Or.inl h
    · exact Or.inr (Or.inl ⟨h1, by omega⟩)
  · simp only [sortKey, Prod.mk.injEq] at heq
    exact Or.inr (Or.inr ⟨heq.1, by omega, hpos⟩)

/-- C5: `window_demand` for a part code is the exact sum of
`forecasted_usage` over the forecast records with that code, it is 0 when no
such record exists, and it is invariant under permutation of the records. -/
theorem usageByCode_sum (fs fs' : List Forecast) (c : String) (hperm : fs.Perm fs') :
    usageByCode fs c = (((fs.filter (fun f => f.part_code == c)).map
        (fun f => (f.forecasted_usage : Int))).sum) ∧
    usageByCode fs c = usageByCode fs' c ∧
    ((∀ f ∈ fs, f.part_code ≠ c) → usageByCode fs c = 0) := by
  have h1 := usageByCode_foldl fs (fun _ => 0) c
  have h2 := usageByCode_foldl fs' (fun _ => 0) c
  refine ⟨by simpa [usageByCode] using h1, ?_, ?_⟩
  · have hp : (fs.filter (fun f => f.part_code == c)).Perm
        (fs'.filter (fun f => f.part_code == c)) := hperm.filter _
    have hs := (hp.map (fun f => (f.forecasted_usage : Int))).sum_eq
    simp only [usageByCode, h1, h2, hs]
  · intro hnone
    have hfil : fs.filter (fun f => f.part_code == c) = [] := by
      apply List.filter_eq_nil_iff.mpr
      intro f hf
      simpa using hnone f hf
    simp [usageByCode, h1, hfil]

/-- C5 witness: three concrete forecasts, demand for code `A` is `2 + 5 = 7`,
equal on a permuted record list. -/
theorem usageByCode_sum_witness :
    usageByCode [⟨"A", 2⟩, ⟨"B", 3⟩, ⟨"A", 5⟩] "A" = 7 ∧
    usageByCode [⟨"A", 2⟩, ⟨"B", 3⟩, ⟨"A", 5⟩] "A"
      = usageByCode [⟨"A", 5⟩, ⟨"A", 2⟩, ⟨"B", 3⟩] "A" := by
  have h := usageByCode_sum [⟨"A", 2⟩, ⟨"B", 3⟩, ⟨"A", 5⟩]
    [⟨"A", 5⟩, ⟨"A", 2⟩, ⟨"B", 3⟩] "A" (by decide)
  exact ⟨by rw [h.1]; decide, h.2.1⟩


/-- Membership in the computed candidate rows forces the shape produced by
`mkCandidate`, whose recommended quantity is a `max 0 _`. -/
theorem mem_candidateRows_qty (now : ℚ) (usage : String → Int) (inv : List InvRecord)
    (c : ReorderCandidate) (hc : c ∈ candidateRows now usage inv) :
    0 ≤ c.recommendedQuantity := by
  obtain ⟨m, hm, hmc⟩ := List.mem_filterMap.mp hc
  rcases hcode : m.part_code with _ | code
  · simp [hcode] at hmc
  · simp only [hcode] at hmc
    by_cases hemp : code = ""
    · simp [hemp] at hmc
    · simp only [if_neg hemp, Option.some.injEq] at hmc
      subst hmc
      exact le_max_left _ _

/-- C4: the recommended quantity is `max(0, target - current_stock)` with
target `max_threshold` when present and `reorder_point + window_demand`
otherwise; it is never negative, and neither is the `recommendedQuantity`
of any candidate the planner ever returns. -/
theorem recommend_qty_spec :
    (∀ s rp w t, recommend_qty s rp w (some t) = max 0 (t - s)) ∧
    (∀ s rp w, recommend_qty s rp w none = max 0 (rp + w - s)) ∧
    (∀ s rp w mt, 0 ≤ recommend_qty s rp w mt) ∧
    (∀ h fetch db now out, reorder_candidates h fetch db now = .ok out →
      ∀ c ∈ out, 0 ≤ c.recommendedQuantity) := by
  refine ⟨fun s rp w t => rfl, fun s rp w => rfl,
    fun s rp w mt => le_max_left _ _, ?_⟩
  intro h fetch db now out hout c hc
  rcases fetch with ⟨status, payload, text⟩ | msg
  case failure => simp [reorder_candidates] at hout
  case response =>
    by_cases hs : status = 200
    case neg => simp [reorder_candidates, hs] at hout
    case pos =>
      subst hs
      have hout' : sortCandidates (candidateRows now (usageByCode db) payload) = out := by
        simpa [reorder_candidates] using hout
      subst hout'
      exact mem_candidateRows_qty now (usageByCode db) payload c
        ((sortCandidates_perm _).mem_iff.mp hc)

/-- A concrete inventory record for the C4 witness: stock 5, reorder point
10, usage rate 1/day, no max threshold. -/
def invExample : InvRecord := ⟨1, some "P", "Part", some 5, some 10, some 0, some 1, none⟩

/-- The candidate the planner computes from `invExample` with no forecasts
at time 0: urgency High, recommended quantity 5, depletion at day 5. -/
def candExample : ReorderCandidate :=
  ⟨1, some "P", "Part", 5, 10, 0, 1, 0, "High", 5, 5⟩

/-- C4 witness: a full planning run on `invExample` returns `candExample`,
whose recommended quantity is nonnegative by `recommend_qty_spec`. -/
theorem recommend_qty_spec_witness :
    reorder_candidates 7 (.response 200 [invExample] "") [] 0 = .ok [candExample] ∧
    0 ≤ candExample.recommendedQuantity := by
  have hout : reorder_candidates 7 (.response 200 [invExample] "") [] 0
      = .ok [candExample] := by
    simp [reorder_candidates, sortCandidates, candidateRows, mkCandidate,
      invExample, candExample, usageByCode, urgency, recommend_qty,
      depletionEpsilon, List.enum, List.enumFrom]
    norm_num
  exact ⟨hout,
    recommend_qty_spec.2.2.2 7 (.response 200 [invExample] "") [] 0 [candExample]
      hout candExample (by simp)⟩

/-- A forecast row used by the C6 theorems. -/
def rowExample : ForecastRow := ⟨1, "P-001", 3, none, none, none⟩

/-- C6 counterexample: id 99 is absent from the store `[rowExample]`, yet
`delete_forecast` succeeds (HTTP 204, the handler plain-returns) instead of
failing with `NotFoundError`; the store is left unchanged. -/
theorem delete_unknown_id_counterexample :
    dbGet [rowExample] 99 = none ∧ delete_forecast [rowExample] 99 = .ok [rowExample] :=
  ⟨by decide, rfl⟩

/-- C6 (amended): on an id absent from the store, `update_forecast` fails
with the 404 `NotFoundError` and `delete_forecast` is a silent no-op
returning success; both leave the store unchanged. The spec-modelled
single-record `get_forecast` (absent from `main.py`) fails with 404. -/
theorem unknown_id_operations (db : List ForecastRow) (fid : Int) (p : ForecastIn)
    (h : dbGet db fid = none) :
    update_forecast db fid p = .error ⟨404, "forecast not found"⟩ ∧
    delete_forecast db fid = .ok db ∧
    get_forecast db fid = .error ⟨404, "forecast not found"⟩ := by
  refine ⟨?_, ?_, ?_⟩ <;> simp [update_forecast, delete_forecast, get_forecast, h]

/-- C6 witness: the amended statement at the concrete store `[rowExample]`
and the unknown id 99. -/
theorem unknown_id_operations_witness :
    update_forecast [rowExample] 99 ⟨"X", 1, none, none, none⟩
      = .error ⟨404, "forecast not found"⟩ ∧
    delete_forecast [rowExample] 99 = .ok [rowExample] ∧
    get_forecast [rowExample] 99 = .error ⟨404, "forecast not found"⟩ :=
  unknown_id_operations [rowExample] 99 ⟨"X", 1, none, none, none⟩ (by decide)

/-- Failure of the inventory fetch: a non-200 response or a raised
exception (network failure or malformed payload). -/
def fetchFailed : ErpFetch → Prop
  | .response s _ _ => s ≠ 200
  | .failure _ => True

/-- C8: whenever the ERP inventory fetch fails — non-success status,
network failure or malformed payload — the whole planning computation
aborts with the 502 `UpstreamUnavailableError` and no candidate list
(partial or otherwise) is produced. -/
theorem fetch_failure_aborts (h : Int) (fetch : ErpFetch) (db : List Forecast)
    (now : ℚ) (hf : fetchFailed fetch) :
    (∃ msg, reorder_candidates h fetch db now = .error ⟨502, msg⟩) ∧
    ∀ out, reorder_candidates h fetch db now ≠ .ok out := by
  rcases fetch with ⟨status, payload, text⟩ | msg
  · have hs : status ≠ 200 := hf
    exact ⟨⟨"ERP inventory fetch failed: HTTP " ++ toString status ++ " " ++ text,
        by simp [reorder_candidates, hs]⟩,
      fun out => by simp [reorder_candidates, hs]⟩
  · exact ⟨⟨"ERP inventory fetch failed: " ++ msg, by simp [reorder_candidates]⟩,
      fun out => by simp [reorder_candidates]⟩

/-- C8 witness: a connection timeout during the fetch yields the 502
outcome and no candidates. -/
theorem fetch_failure_aborts_witness :
    (∃ msg, reorder_candidates 7 (.failure "timed out") [] 0 = .error ⟨502, msg⟩) ∧
    ∀ out, reorder_candidates 7 (.failure "timed out") [] 0 ≠ .ok out :=
  fetch_failure_aborts 7 (.failure "timed out") [] 0 trivial

/-- C9: when a row with the requested id exists, `update_forecast` succeeds
and replaces all five mutable fields of the first such row with the
payload's values, keeps its `id`, and touches no other row (the store
splits as `pre ++ row :: post` with only `row` rewritten). -/
theorem update_replaces_fields (db : List ForecastRow) (fid : Int) (p : ForecastIn)
    (r : ForecastRow) (hr : dbGet db fid = some r) :
    update_forecast db fid p = .ok (updateFirst db fid p, applyPayload r p) ∧
    (applyPayload r p).id = r.id ∧
    (applyPayload r p).part_code = p.part_code ∧
    (applyPayload r p).forecasted_usage = p.forecasted_usage ∧
    (applyPayload r p).job_id = p.job_id ∧
    (applyPayload r p).job_start_date = p.job_start_date ∧
    (applyPayload r p).job_end_date = p.job_end_date ∧
    ∃ pre post, db = pre ++ r :: post ∧
      updateFirst db fid p = pre ++ applyPayload r p :: post ∧
      ∀ x ∈ pre, x.id ≠ fid := by
  refine ⟨by simp [update_forecast, hr], rfl, rfl, rfl, rfl, rfl, rfl, ?_⟩
  induction db with
  | nil => simp [dbGet] at hr
  | cons a rest ih =>
    by_cases ha : a.id = fid
    · have hfind : dbGet (a :: rest) fid = some a := by
        simp [dbGet, List.find?_cons_of_pos, ha]
      rw [hfind] at hr
      obtain rfl : a = r := by injection hr
      refine ⟨[], rest, rfl, ?_, by simp⟩
      simp [updateFirst, ha]
    · have hr' : dbGet rest fid = some r := by
        simpa [dbGet, List.find?_cons_of_neg, ha] using hr
      obtain ⟨pre, post, hdb, hupd, hpre⟩ := ih hr'
      refine ⟨a :: pre, post, by simp [hdb], ?_, ?_⟩
      · simp [updateFirst, ha, hupd]
      · intro x hx
        rcases List.mem_cons.mp hx with rfl | hx
        · exact ha
        · exact hpre x hx

/-- C9 witness: updating the one-row store `[rowExample]` at id 1 replaces
all payload fields and keeps the id. -/
theorem update_replaces_fields_witness :
    update_forecast [rowExample] 1 ⟨"B", 5, some "J-2", none, none⟩
      = .ok ([⟨1, "B", 5, some "J-2", none, none⟩], ⟨1, "B", 5, some "J-2", none, none⟩) := by
  have h := update_replaces_fields [rowExample] 1 ⟨"B", 5, some "J-2", none, none⟩
    rowExample (by decide)
  rw [h.1]
  rfl

/-- C10: for any two in-range horizons, the endpoint returns identical
results on the same store, inventory snapshot and instant — `horizon_days`
influences nothing in the computation. -/
theorem horizon_has_no_influence (h1 h2 : Int) (fetch : ErpFetch)
    (db : List Forecast) (now : ℚ)
    (hh1 : 1 ≤ h1 ∧ h1 ≤ 90) (hh2 : 1 ≤ h2 ∧ h2 ≤ 90) :
    reorder_candidates_endpoint h1 fetch db now
      = reorder_candidates_endpoint h2 fetch db now := by
  unfold reorder_candidates_endpoint
  rw [if_pos hh1, if_pos hh2]
  rfl

/-- C10 witness: horizons 1 and 90 agree on a concrete request. -/
theorem horizon_has_no_influence_witness :
    reorder_candidates_endpoint 1 (.failure "x") [] 0
      = reorder_candidates_endpoint 90 (.failure "x") [] 0 :=
  horizon_has_no_influence 1 90 (.failure "x") [] 0 (by decide) (by decide)

end MSE

namespace MSE

/-- The purchase-order request of the C2 counterexample: part 42, the
defaults `lookback_hours = 24` and `allow_duplicate = False`. -/
def reqNoDup : CreatePORequest :=
  { part_id := 42, quantity := 5, urgency := some "High"
    reason := some "Created by MES planner", correlation_id := none
    lookback_hours := 24, allow_duplicate := false }

/-- An ERP purchase order for part 42 created one hour before time 100. -/
def poRecent : ErpPO := { id := 7, part_id := 42, created_at := 99 }

/-- C2 counterexample: with `allow_duplicate = false`, `lookback_hours = 24`
and an existing ERP order for the same part inside the lookback window,
`create_po` still issues the POST (the action list is non-empty) and — the
ERP here accepting with 201 — even succeeds, instead of failing with
`ConflictError` before any network write as the claim states. -/
theorem duplicate_guard_counterexample :
    withinLookback 100 24 poRecent 42 ∧ poRecent ∈ [poRecent] ∧
    reqNoDup.allow_duplicate = false ∧ 0 < reqNoDup.lookback_hours ∧
    (create_po reqNoDup "mes-x" [poRecent] 100 (.response 201 "created" "ok")).1 ≠ [] ∧
    (create_po reqNoDup "mes-x" [poRecent] 100 (.response 201 "created" "ok")).2
      = .ok "ok" := by
  refine ⟨⟨rfl, by norm_num [poRecent]⟩, by simp, rfl, by norm_num [reqNoDup], ?_, ?_⟩
  · simp [create_po, reqNoDup]
  · simp [create_po, reqNoDup]

/-- C2 (amended): `create_po` performs no client-side duplicate check —
whatever the existing ERP orders and the flags, it issues exactly one
network action, the creation POST carrying `lookback_hours` as a parameter,
and never lists existing purchase orders; duplicate suppression is left to
the ERP, whose 409 rejection (with `allow_duplicate = false`) is surfaced
as the 409 `ConflictError` carrying the ERP's response text. -/
theorem create_po_no_client_check (req : CreatePORequest) (g : String)
    (pos : List ErpPO) (now : ℚ) (erp : PostOutcome) :
    (create_po req g pos now erp).1 =
      [NetAction.postPO req.lookback_hours
        ⟨req.part_id, req.quantity, req.urgency, req.reason, req.correlation_id.getD g⟩] ∧
    NetAction.getPOList ∉ (create_po req g pos now erp).1 ∧
    (∀ t j, req.allow_duplicate = false → erp = .response 409 t j →
      (create_po req g pos now erp).2 = .error ⟨409, t⟩) := by
  refine ⟨?_, ?_, ?_⟩
  · cases h : req.correlation_id <;> simp [create_po, h, Option.getD]
  · cases h : req.correlation_id <;> simp [create_po, h]
  · rintro t j hdup rfl
    simp [create_po, hdup]

/-- C2 witness: on a 409 rejection with `allow_duplicate = false`, the one
POST carries the lookback parameter and the result is the 409 conflict. -/
theorem create_po_no_client_check_witness :
    (create_po reqNoDup "mes-x" [] 0 (.response 409 "duplicate" "")).1 =
      [NetAction.postPO 24
        ⟨42, 5, some "High", some "Created by MES planner", "mes-x"⟩] ∧
    (create_po reqNoDup "mes-x" [] 0 (.response 409 "duplicate" "")).2
      = .error ⟨409, "duplicate"⟩ := by
  have h := create_po_no_client_check reqNoDup "mes-x" [] 0 (.response 409 "duplicate" "")
  exact ⟨by simpa [reqNoDup] using h.1, h.2.2 "duplicate" "" rfl rfl⟩

/-- The purchase-order request of the C7 counterexample: identical but with
`allow_duplicate = true`. -/
def reqAllowDup : CreatePORequest :=
  { part_id := 42, quantity := 5, urgency := none
    reason := some "Created by MES planner", correlation_id := some "corr-1"
    lookback_hours := 24, allow_duplicate := true }

/-- C7 counterexample: with `allow_duplicate = true` a 409 response from
ERP is NOT surfaced as the 409 `ConflictError` — `raise_for_status` throws
and the handler converts it into the generic 502 upstream failure. -/
theorem conflict_allow_duplicate_counterexample :
    reqAllowDup.allow_duplicate = true ∧
    (create_po reqAllowDup "c" [] 0 (.response 409 "duplicate order" "")).2
      = .error ⟨502, "ERP PO create failed: HTTP status 409"⟩ := by
  refine ⟨rfl, ?_⟩
  simp [create_po, reqAllowDup]
  rfl

/-- C7 (amended): the creation POST always carries the lookback window as a
parameter; a 409 from ERP is surfaced as the 409 `ConflictError` when
`allow_duplicate = false`, and as the generic 502 upstream failure when
`allow_duplicate = true`. -/
theorem conflict_surfaced (req : CreatePORequest) (g : String) (pos : List ErpPO)
    (now : ℚ) (t j : String) :
    (req.allow_duplicate = false →
      (create_po req g pos now (.response 409 t j)).2 = .error ⟨409, t⟩) ∧
    (req.allow_duplicate = true →
      (create_po req g pos now (.response 409 t j)).2
        = .error ⟨502, "ERP PO create failed: HTTP status 409"⟩) ∧
    (∃ b, (create_po req g pos now (.response 409 t j)).1
        = [NetAction.postPO req.lookback_hours b]) := by
  refine ⟨fun hdup => by simp [create_po, hdup], ?_, ⟨_, rfl⟩⟩
  intro hdup
  simp [create_po, hdup]
  rfl

/-- C7 witness: both branches at concrete requests — conflict surfaced as
409 when duplicates are disallowed, as generic 502 when they are allowed. -/
theorem conflict_surfaced_witness :
    (create_po reqNoDup "c" [] 0 (.response 409 "dup" "")).2 = .error ⟨409, "dup"⟩ ∧
    (create_po reqAllowDup "c" [] 0 (.response 409 "dup" "")).2
      = .error ⟨502, "ERP PO create failed: HTTP status 409"⟩ :=
  ⟨(conflict_surfaced reqNoDup "c" [] 0 "dup" "").1 rfl,
   (conflict_surfaced reqAllowDup "c" [] 0 "dup" "").2.1 rfl⟩

end MSE
